import Mathlib

/-!
# pidgr-mcp bearer-token verification subsystem: a shallow embedding

This file embeds the `internal/auth` package of pidgr-mcp in Lean 4 and
proves the specification claims about it.

Modelling conventions:
* Timestamps and durations are `Nat` seconds (`time.Hour` becomes `3600`,
  `time.Since(t)` at clock value `now` becomes `now - t` with `Nat`
  truncated subtraction; the Go clock never runs backwards).
* A JWKS (`jwk.Set`) is a list of keys, each carrying its key identifier
  (`kid`) and abstract key material; a token's signature is valid against a
  key exactly when the key's material equals the material the token was
  signed with.
* The network is a pure oracle `world : Nat → Except String KeySet` giving
  the outcome of the n-th JWKS fetch; a fetch counter is threaded through
  every operation so that "number of network fetches" is observable.
* `jwt.Parse(..., jwt.WithKeySet(ks), jwt.WithValidate(true))` is modelled
  by `jwtParse`: resolve the `kid`, check the signature, then validate the
  temporal claims (`exp`, `nbf`).
* Go errors are strings built exactly the way the source builds them with
  `fmt.Errorf`; the MCP SDK sentinel `mcpauth.ErrInvalidToken` renders as
  the constant `errInvalidToken`.
-/

namespace PidgrMCP

/-- A public signing key of a JWKS: its key identifier and (abstract) key
material. -/
structure Key where
  kid : String
  material : Nat
deriving DecidableEq, Repr

/-- `jwk.Set`: an immutable-once-fetched collection of public keys. -/
abbrev KeySet := List Key

/-- The decoded body of a JWT: header `kid`, the key material its signature
was produced with, and the registered/private claims the verifier reads. -/
structure TokenBody where
  kid : String
  sigMaterial : Nat
  issuer : String
  subject : String
  audience : List String
  expiration : Option Nat
  notBefore : Option Nat
  privateClaims : List (String × String)
deriving DecidableEq, Repr

/-- A token presented to `Verify`: the raw string handed over the wire and,
when the string is well-formed, its decoded body (`none` models a string
that cannot be parsed as a JWT at all). -/
structure TokenInput where
  raw : String
  body : Option TokenBody
deriving DecidableEq, Repr

/-- Failure modes of `jwt.Parse` with `jwt.WithKeySet` and
`jwt.WithValidate(true)`. -/
inductive JwtError
  | malformed
  | keyNotFound
  | signatureInvalid
  | expired
  | notYetValid
deriving DecidableEq, Repr

/-- The text the jwx library renders for each parse/validate failure
(abstracted; only used where the Go code formats the error with `%v`). -/
def JwtError.message : JwtError → String
  | .malformed => "failed to parse token"
  | .keyNotFound => "failed to find key with matching key ID"
  | .signatureInvalid => "could not verify message using any of the signatures or keys"
  | .expired => "exp not satisfied"
  | .notYetValid => "nbf not satisfied"

/-- First key of the set with the given `kid`, as jwx key-set lookup. -/
def findKey (ks : KeySet) (kid : String) : Option Key :=
  ks.find? (fun k => k.kid == kid)

/-- Model of `jwt.Parse([]byte(token), jwt.WithKeySet(keySet),
jwt.WithValidate(true))`: decode, resolve the header `kid` in the key set,
verify the signature, then validate `exp` and `nbf` against `now`. -/
def jwtParse (ks : KeySet) (tok : TokenInput) (now : Nat) : Except JwtError TokenBody :=
  match tok.body with
  | none => .error .malformed
  | some b =>
    match findKey ks b.kid with
    | none => .error .keyNotFound
    | some k =>
      if k.material ≠ b.sigMaterial then .error .signatureInvalid
      else if b.expiration.any (fun e => e ≤ now) then .error .expired
      else if b.notBefore.any (fun n => now < n) then .error .notYetValid
      else .ok b

/-- Rendering of the MCP SDK sentinel error `mcpauth.ErrInvalidToken`, the
`%w` target of every error the verifiers return. -/
def errInvalidToken : String := "invalid token"

/-- `mcpauth.TokenInfo` as populated by the verifiers: `Scopes`,
`Expiration`, `UserID` and the `Extra` map entries `raw_token`, `sub`,
`org_id`. -/
structure TokenInfo where
  scopes : List String
  expiration : Nat
  userID : String
  rawToken : String
  sub : String
  orgID : String
deriving DecidableEq, Repr

/-- `parsed.PrivateClaims()[key]` followed by the string type assertion
(`orgID, _ = claims.(string)`): absent or non-string yields `""`. -/
def lookupClaim (claims : List (String × String)) (key : String) : Option String :=
  (claims.find? (fun p => p.1 == key)).map (fun p => p.2)

/-- `jwksCacheTTL = time.Hour`, in seconds. -/
def jwksCacheTTL : Nat := 3600

/-- `OIDCVerifier`: configuration plus the mutable JWKS cache fields
(`keySet`, `fetched`, `lastFetched`). Go zero values: `nil`/`false`/`0`. -/
structure OIDCVerifier where
  clientID : String
  issuer : String
  jwksURL : String
  keySet : Option KeySet
  fetched : Bool
  lastFetched : Nat
deriving DecidableEq, Repr

/-- `NewOIDCVerifier(issuerURL, clientID)`. -/
def NewOIDCVerifier (issuerURL clientID : String) : OIDCVerifier :=
  { clientID := clientID
    issuer := issuerURL
    jwksURL := issuerURL ++ "/.well-known/jwks.json"
    keySet := none
    fetched := false
    lastFetched := 0 }

/-- `OIDCVerifier.refreshKeySet`: fetch the JWKS (consuming the next slot of
the network oracle, hence `count + 1`) and on success install
`{keySet, fetched := true, lastFetched := now}`; on failure wrap the error
(`"failed to fetch key set: %w"`) and leave the cache untouched. -/
def OIDCVerifier.refreshKeySet (v : OIDCVerifier) (world : Nat → Except String KeySet)
    (count now : Nat) : Except String KeySet × OIDCVerifier × Nat :=
  match world count with
  | .error e => (.error ("failed to fetch key set: " ++ e), v, count + 1)
  | .ok ks =>
      (.ok ks, { v with keySet := some ks, fetched := true, lastFetched := now }, count + 1)

/-- `OIDCVerifier.getKeySet`: serve the cached JWKS when
`fetched && keySet != nil && time.Since(lastFetched) < jwksCacheTTL`,
otherwise refresh. -/
def OIDCVerifier.getKeySet (v : OIDCVerifier) (world : Nat → Except String KeySet)
    (count now : Nat) : Except String KeySet × OIDCVerifier × Nat :=
  match v.keySet with
  | some ks =>
      if v.fetched ∧ now - v.lastFetched < jwksCacheTTL then (.ok ks, v, count)
      else v.refreshKeySet world count now
  | none => v.refreshKeySet world count now

/-- The issuer/audience checks and claim extraction of
`OIDCVerifier.Verify` (source lines 66-109), entered once a parse attempt
has succeeded with `parsed`. -/
def OIDCVerifier.finishVerify (v : OIDCVerifier) (count : Nat) (parsed : TokenBody)
    (token : String) (now : Nat) : Except String TokenInfo × OIDCVerifier × Nat :=
  if parsed.issuer ≠ v.issuer then
    (.error (errInvalidToken ++ ": token validation failed"), v, count)
  else if v.clientID ≠ "" ∧ v.clientID ∉ parsed.audience then
    (.error (errInvalidToken ++ ": token validation failed"), v, count)
  else
    let sub := parsed.subject
    let orgID := (lookupClaim parsed.privateClaims "custom:org_id").getD ""
    let exp := parsed.expiration.getD (now + 3600)
    (.ok { scopes := ["openid", "profile"]
           expiration := exp
           userID := sub
           rawToken := token
           sub := sub
           orgID := orgID }, v, count)

/-- `OIDCVerifier.Verify`: get the key set, parse+validate, on a first parse
failure force one JWKS refresh and retry once, then check issuer and
audience and build the `TokenInfo`. Every failure path returns the wrapped
generic message `"token validation failed"`. -/
def OIDCVerifier.Verify (v : OIDCVerifier) (world : Nat → Except String KeySet)
    (count : Nat) (token : TokenInput) (now : Nat) :
    Except String TokenInfo × OIDCVerifier × Nat :=
  match v.getKeySet world count now with
  | (.error _, v1, c1) =>
      (.error (errInvalidToken ++ ": token validation failed"), v1, c1)
  | (.ok ks, v1, c1) =>
    match jwtParse ks token now with
    | .ok parsed => v1.finishVerify c1 parsed token.raw now
    | .error _ =>
      match v1.refreshKeySet world c1 now with
      | (.error _, v2, c2) =>
          (.error (errInvalidToken ++ ": token validation failed"), v2, c2)
      | (.ok ks2, v2, c2) =>
        match jwtParse ks2 token now with
        | .error _ =>
            (.error (errInvalidToken ++ ": token validation failed"), v2, c2)
        | .ok parsed => v2.finishVerify c2 parsed token.raw now

/-- `CognitoVerifier`: configuration plus the mutable JWKS cache fields
(`keySet`, `fetched`); it has no TTL field and no `clientID`. -/
structure CognitoVerifier where
  poolID : String
  region : String
  issuer : String
  jwksURL : String
  keySet : Option KeySet
  fetched : Bool
deriving DecidableEq, Repr

/-- `NewCognitoVerifier(poolID, region)`. -/
def NewCognitoVerifier (poolID region : String) : CognitoVerifier :=
  { poolID := poolID
    region := region
    issuer := "https://cognito-idp." ++ region ++ ".amazonaws.com/" ++ poolID
    jwksURL := "https://cognito-idp." ++ region ++ ".amazonaws.com/" ++ poolID
      ++ "/.well-known/jwks.json"
    keySet := none
    fetched := false }

/-- `CognitoVerifier.refreshKeySet`: fetch and install; on failure wrap as
`fmt.Errorf("fetch JWKS from %s: %w", v.jwksURL, err)` — the error text
carries the JWKS URL. -/
def CognitoVerifier.refreshKeySet (v : CognitoVerifier) (world : Nat → Except String KeySet)
    (count : Nat) : Except String KeySet × CognitoVerifier × Nat :=
  match world count with
  | .error e => (.error ("fetch JWKS from " ++ v.jwksURL ++ ": " ++ e), v, count + 1)
  | .ok ks => (.ok ks, { v with keySet := some ks, fetched := true }, count + 1)

/-- `CognitoVerifier.getKeySet`: serve the cache whenever
`fetched && keySet != nil` (no freshness check), otherwise refresh. -/
def CognitoVerifier.getKeySet (v : CognitoVerifier) (world : Nat → Except String KeySet)
    (count : Nat) : Except String KeySet × CognitoVerifier × Nat :=
  match v.keySet with
  | some ks => if v.fetched then (.ok ks, v, count) else v.refreshKeySet world count
  | none => v.refreshKeySet world count

/-- Issuer check and claim extraction of `CognitoVerifier.Verify` (source
lines 61-87), entered once a parse attempt has succeeded with `parsed`. -/
def CognitoVerifier.finishVerify (v : CognitoVerifier) (count : Nat) (parsed : TokenBody)
    (token : String) (now : Nat) : Except String TokenInfo × CognitoVerifier × Nat :=
  if parsed.issuer ≠ v.issuer then
    (.error (errInvalidToken ++ ": invalid issuer: got \"" ++ parsed.issuer
      ++ "\", want \"" ++ v.issuer ++ "\""), v, count)
  else
    let sub := parsed.subject
    let orgID := (lookupClaim parsed.privateClaims "custom:org_id").getD ""
    let exp := parsed.expiration.getD (now + 3600)
    (.ok { scopes := ["openid", "profile"]
           expiration := exp
           userID := sub
           rawToken := token
           sub := sub
           orgID := orgID }, v, count)

/-- `CognitoVerifier.Verify`: same control flow as the OIDC verifier but
with no audience check and with error messages that interpolate the
underlying error (`%v`) and, on issuer mismatch, both issuer strings
(`"invalid issuer: got %q, want %q"`). -/
def CognitoVerifier.Verify (v : CognitoVerifier) (world : Nat → Except String KeySet)
    (count : Nat) (token : TokenInput) (now : Nat) :
    Except String TokenInfo × CognitoVerifier × Nat :=
  match v.getKeySet world count with
  | (.error e, v1, c1) =>
      (.error (errInvalidToken ++ ": failed to fetch JWKS: " ++ e), v1, c1)
  | (.ok ks, v1, c1) =>
    match jwtParse ks token now with
    | .ok parsed => CognitoVerifier.finishVerify v1 c1 parsed token.raw now
    | .error err =>
      match v1.refreshKeySet world c1 with
      | (.error _, v2, c2) =>
          (.error (errInvalidToken ++ ": " ++ JwtError.message err), v2, c2)
      | (.ok ks2, v2, c2) =>
        match jwtParse ks2 token now with
        | .error err2 =>
            (.error (errInvalidToken ++ ": " ++ JwtError.message err2), v2, c2)
        | .ok parsed => CognitoVerifier.finishVerify v2 c2 parsed token.raw now

/-- `oauthex.ProtectedResourceMetadata`, the fields the repository sets. -/
structure ProtectedResourceMetadata where
  resource : String
  authorizationServers : List String
  scopesSupported : List String
  bearerMethodsSupported : List String
  resourceName : String
deriving DecidableEq, Repr

/-- `NewProtectedResourceMetadata(resourceURL, cognitoIssuer)` (README,
"RFC 9728"): a pure constructor of the static descriptor; the source
performs no validation of either URL. -/
def NewProtectedResourceMetadata (resourceURL cognitoIssuer : String) :
    ProtectedResourceMetadata :=
  { resource := resourceURL
    authorizationServers := [cognitoIssuer]
    scopesSupported := ["openid", "profile"]
    bearerMethodsSupported := ["header"]
    resourceName := "Pidgr MCP Server" }

/-- Does the character list `hay` start with `pat`? -/
def listStartsWith : List Char → List Char → Bool
  | _, [] => true
  | [], _ :: _ => false
  | c :: cs, p :: ps => c == p && listStartsWith cs ps

/-- Does `pat` occur as a contiguous run anywhere inside `hay`? -/
def listHasSub (hay pat : List Char) : Bool :=
  match hay with
  | [] => listStartsWith [] pat
  | _ :: rest => listStartsWith hay pat || listHasSub rest pat

/-- Substring occurrence on strings, via their character lists. -/
def strContainsSub (s pat : String) : Bool :=
  listHasSub s.data pat.data

/-- Whether a verification outcome is a success. -/
def verifyOk (r : Except String TokenInfo) : Bool :=
  match r with
  | .ok _ => true
  | .error _ => false

/-- The same wire token with its audience claim list replaced; used to state
that the audience claim plays no role when no client ID is configured. -/
def TokenInput.withAudience (tok : TokenInput) (a : List String) : TokenInput :=
  { tok with body := tok.body.map (fun b => { b with audience := a }) }

/-! ## Concrete fixtures (mirroring the repository's test setup) -/

/-- The RSA test key: kid `"test-kid"`, abstract material `1`. -/
def testKey : Key := { kid := "test-kid", material := 1 }

/-- A JWKS holding exactly the test key. -/
def testKeySet : KeySet := [testKey]

/-- A key source that always serves `testKeySet`. -/
def testWorld : Nat → Except String KeySet := fun _ => .ok testKeySet

/-- The configured issuer of the test verifier. -/
def testIssuer : String := "https://auth.example.com/test-pool"

/-- A well-formed token body signed by the test key: matching issuer,
subject `user-123`, expiry at `7200`, org claim `org-456`. -/
def testBody : TokenBody :=
  { kid := "test-kid"
    sigMaterial := 1
    issuer := testIssuer
    subject := "user-123"
    audience := []
    expiration := some 7200
    notBefore := none
    privateClaims := [("custom:org_id", "org-456")] }

/-- The wire form of `testBody`. -/
def testToken : TokenInput := { raw := "header.payload.signature", body := some testBody }

/-- `NewOIDCVerifier(testIssuer, "")`, before any fetch. -/
def testVerifier : OIDCVerifier := NewOIDCVerifier testIssuer ""

/-- The test verifier with a warm, fresh cache installed at time `0`. -/
def warmVerifier : OIDCVerifier :=
  { testVerifier with keySet := some testKeySet, fetched := true, lastFetched := 0 }

/-- A Cognito verifier with a warm cache, for the leak counterexample. -/
def warmCognito : CognitoVerifier :=
  { NewCognitoVerifier "test-pool" "us-east-1" with
      keySet := some testKeySet, fetched := true }

/-- A token signed by the test key but issued by `https://evil.example`. -/
def evilIssuerToken : TokenInput :=
  { raw := "evil.payload.signature"
    body := some { testBody with issuer := "https://evil.example" } }

/-- A key source that is unreachable: every fetch fails with the underlying
transport error. -/
def failWorld : Nat → Except String KeySet := fun _ => .error "connection refused"

/-- A token signed by the known test key whose expiry `500` has already
passed at time `1000`; its failure cause is expiry, not an unknown kid. -/
def shortLivedToken : TokenInput :=
  { raw := "short.payload.signature"
    body := some { testBody with expiration := some 500 } }

/-- A token whose issuer matches `warmCognito`'s configured issuer. -/
def cognitoToken : TokenInput :=
  { raw := "cog.payload.signature"
    body := some { testBody with
      issuer := "https://cognito-idp.us-east-1.amazonaws.com/test-pool" } }

/-- The `TokenInfo` produced by verifying `testToken` at time `1000`. -/
def testInfo : TokenInfo :=
  { scopes := ["openid", "profile"]
    expiration := 7200
    userID := "user-123"
    rawToken := "header.payload.signature"
    sub := "user-123"
    orgID := "org-456" }

/-- `testVerifier` after its first (successful) fetch at time `1000`. -/
def testVerifierFetched : OIDCVerifier :=
  { testVerifier with keySet := some testKeySet, fetched := true, lastFetched := 1000 }

/-- An otherwise valid token that carries no expiration claim. -/
def noExpToken : TokenInput :=
  { raw := "noexp.payload.signature"
    body := some { testBody with expiration := none } }

/-- A warm verifier configured with the client ID `my-client-id`. -/
def audVerifier : OIDCVerifier :=
  { NewOIDCVerifier testIssuer "my-client-id" with
      keySet := some testKeySet, fetched := true, lastFetched := 0 }

/-- A valid token whose audience list names only `other-client-id`. -/
def wrongAudToken : TokenInput :=
  { raw := "aud.payload.signature"
    body := some { testBody with audience := ["other-client-id"] } }

/-- The `TokenInfo` produced by `warmCognito` verifying `cognitoToken`. -/
def cognitoInfo : TokenInfo :=
  { testInfo with rawToken := "cog.payload.signature" }

/-! ## Helper lemmas -/

/-- A refresh never changes the immutable configuration fields. -/
theorem OIDCVerifier.refreshKeySet_config (v : OIDCVerifier)
    (world : Nat → Except String KeySet) (count now : Nat) :
    ((v.refreshKeySet world count now).2.1).clientID = v.clientID ∧
    ((v.refreshKeySet world count now).2.1).issuer = v.issuer := by
  unfold OIDCVerifier.refreshKeySet
  cases h : world count <;> simp

/-- `getKeySet` never changes the immutable configuration fields. -/
theorem OIDCVerifier.getKeySet_config (v : OIDCVerifier)
    (world : Nat → Except String KeySet) (count now : Nat) :
    ((v.getKeySet world count now).2.1).clientID = v.clientID ∧
    ((v.getKeySet world count now).2.1).issuer = v.issuer := by
  unfold OIDCVerifier.getKeySet
  cases h : v.keySet with
  | none => exact v.refreshKeySet_config world count now
  | some ks =>
    by_cases hc : v.fetched = true ∧ now - v.lastFetched < jwksCacheTTL
    · simp [hc]
    · simpa [hc] using v.refreshKeySet_config world count now

/-- A successful parse returns exactly the decoded body of the input. -/
theorem jwtParse_ok_body (ks : KeySet) (tok : TokenInput) (now : Nat) (b : TokenBody)
    (h : jwtParse ks tok now = .ok b) : tok.body = some b := by
  cases hb : tok.body with
  | none => simp [jwtParse, hb] at h
  | some b' =>
    simp only [jwtParse, hb] at h
    cases hk : findKey ks b'.kid with
    | none => simp [hk] at h
    | some k =>
      simp only [hk] at h
      split_ifs at h
      all_goals simp_all

/-- `finishVerify` can only fail with the generic public message. -/
theorem OIDCVerifier.finishVerify_error_generic (v : OIDCVerifier) (count : Nat)
    (parsed : TokenBody) (token : String) (now : Nat) (msg : String)
    (v' : OIDCVerifier) (c' : Nat)
    (h : v.finishVerify count parsed token now = (.error msg, v', c')) :
    msg = errInvalidToken ++ ": token validation failed" := by
  unfold OIDCVerifier.finishVerify at h
  split_ifs at h <;> simp_all

/-- Shape of a successful `finishVerify`: the checks passed and the
`TokenInfo` is built field-for-field from the parsed body. -/
theorem OIDCVerifier.finishVerify_ok (v : OIDCVerifier) (count : Nat)
    (parsed : TokenBody) (token : String) (now : Nat) (info : TokenInfo)
    (v' : OIDCVerifier) (c' : Nat)
    (h : v.finishVerify count parsed token now = (.ok info, v', c')) :
    info = { scopes := ["openid", "profile"]
             expiration := parsed.expiration.getD (now + 3600)
             userID := parsed.subject
             rawToken := token
             sub := parsed.subject
             orgID := (lookupClaim parsed.privateClaims "custom:org_id").getD "" } ∧
    parsed.issuer = v.issuer ∧ (v.clientID = "" ∨ v.clientID ∈ parsed.audience) ∧
    v' = v ∧ c' = count := by
  unfold OIDCVerifier.finishVerify at h
  split_ifs at h with h1 h2
  · exact absurd h (by simp)
  · exact absurd h (by simp)
  · simp only [Prod.mk.injEq, Except.ok.injEq] at h
    obtain ⟨hinfo, hv, hc'⟩ := h
    refine ⟨hinfo.symm, not_not.mp h1, ?_, hv.symm, hc'.symm⟩
    by_cases hc : v.clientID = ""
    · exact Or.inl hc
    · refine Or.inr ?_
      by_contra hmem
      exact h2 ⟨hc, hmem⟩

/-- Shape of a successful `Verify`: some parse attempt succeeded on the
input's decoded body, and that body passed the issuer and audience checks
of the (configuration-identical) verifier state. -/
theorem OIDCVerifier.Verify_ok_shape (v : OIDCVerifier)
    (world : Nat → Except String KeySet) (count : Nat) (tok : TokenInput)
    (now : Nat) (info : TokenInfo) (v' : OIDCVerifier) (c' : Nat)
    (h : v.Verify world count tok now = (.ok info, v', c')) :
    ∃ b, tok.body = some b ∧
      info = { scopes := ["openid", "profile"]
               expiration := b.expiration.getD (now + 3600)
               userID := b.subject
               rawToken := tok.raw
               sub := b.subject
               orgID := (lookupClaim b.privateClaims "custom:org_id").getD "" } ∧
      b.issuer = v.issuer ∧ (v.clientID = "" ∨ v.clientID ∈ b.audience) := by
  unfold OIDCVerifier.Verify at h
  rcases hg : v.getKeySet world count now with ⟨r, v1, c1⟩
  have hcfg := v.getKeySet_config world count now
  simp only [hg] at h hcfg
  cases r with
  | error e => simp at h
  | ok ks =>
    cases hp : jwtParse ks tok now with
    | ok b =>
      simp only [hp] at h
      obtain ⟨hinfo, hiss, haud, _, _⟩ := OIDCVerifier.finishVerify_ok _ _ _ _ _ _ _ _ h
      refine ⟨b, jwtParse_ok_body ks tok now b hp, hinfo, ?_, ?_⟩
      · rw [hiss, hcfg.2]
      · rcases haud with hc | hm
        · exact Or.inl (hcfg.1 ▸ hc)
        · exact Or.inr (hcfg.1 ▸ hm)
    | error err =>
      simp only [hp] at h
      rcases hr : v1.refreshKeySet world c1 now with ⟨r2, v2, c2⟩
      have hcfg2 := v1.refreshKeySet_config world c1 now
      simp only [hr] at h hcfg2
      cases r2 with
      | error e2 => simp at h
      | ok ks2 =>
        cases hp2 : jwtParse ks2 tok now with
        | error err2 => simp only [hp2] at h; simp at h
        | ok b =>
          simp only [hp2] at h
          obtain ⟨hinfo, hiss, haud, _, _⟩ := OIDCVerifier.finishVerify_ok _ _ _ _ _ _ _ _ h
          refine ⟨b, jwtParse_ok_body ks2 tok now b hp2, hinfo, ?_, ?_⟩
          · rw [hiss, hcfg2.2, hcfg.2]
          · rcases haud with hc | hm
            · exact Or.inl (by rw [← hcfg.1, ← hcfg2.1, hc])
            · exact Or.inr (by rw [← hcfg.1, ← hcfg2.1]; exact hm)

/-- Constructive success: if the key set is obtained, the first parse
succeeds, and the issuer and audience checks hold, `Verify` returns the
`TokenInfo` built from the parsed body. -/
theorem OIDCVerifier.Verify_ok_of (v v1 : OIDCVerifier)
    (world : Nat → Except String KeySet) (count c1 now : Nat) (tok : TokenInput)
    (b : TokenBody) (ks : KeySet)
    (hks : v.getKeySet world count now = (.ok ks, v1, c1))
    (hp : jwtParse ks tok now = .ok b)
    (hiss : b.issuer = v.issuer)
    (haud : v.clientID = "" ∨ v.clientID ∈ b.audience) :
    v.Verify world count tok now =
      (.ok { scopes := ["openid", "profile"]
             expiration := b.expiration.getD (now + 3600)
             userID := b.subject
             rawToken := tok.raw
             sub := b.subject
             orgID := (lookupClaim b.privateClaims "custom:org_id").getD "" },
       v1, c1) := by
  have hcfg := v.getKeySet_config world count now
  simp only [hks] at hcfg
  unfold OIDCVerifier.Verify
  simp only [hks, hp]
  unfold OIDCVerifier.finishVerify
  have h1 : ¬ b.issuer ≠ v1.issuer := by rw [hcfg.2, ← hiss]; simp
  have h2 : ¬ (v1.clientID ≠ "" ∧ v1.clientID ∉ b.audience) := by
    rintro ⟨hne, hnin⟩
    rcases haud with hc | hm
    · exact hne (hcfg.1.trans hc)
    · exact hnin (by rw [hcfg.1]; exact hm)
  rw [if_neg h1, if_neg h2]

/-- `withAudience` does not touch the raw token string. -/
theorem TokenInput.withAudience_raw (tok : TokenInput) (a : List String) :
    (tok.withAudience a).raw = tok.raw := rfl

/-- Parsing ignores the audience claim: parsing a token whose audience was
replaced yields the same outcome with the audience replaced in the body. -/
theorem jwtParse_withAudience (ks : KeySet) (tok : TokenInput) (now : Nat)
    (a : List String) :
    jwtParse ks (tok.withAudience a) now =
      Except.map (fun b => { b with audience := a }) (jwtParse ks tok now) := by
  unfold jwtParse TokenInput.withAudience
  cases hb : tok.body with
  | none => simp [Except.map]
  | some b =>
    simp only [hb, Option.map_some']
    dsimp only
    cases hk : findKey ks b.kid with
    | none => simp [hk, Except.map]
    | some k =>
      simp only [hk]
      split_ifs with h1 h2 h3
      all_goals simp [Except.map]

/-- With no configured client ID, `finishVerify` is independent of the
token's audience list. -/
theorem OIDCVerifier.finishVerify_withAudience (v : OIDCVerifier) (count : Nat)
    (b : TokenBody) (a : List String) (token : String) (now : Nat)
    (hcid : v.clientID = "") :
    v.finishVerify count { b with audience := a } token now =
      v.finishVerify count b token now := by
  unfold OIDCVerifier.finishVerify
  simp [hcid]

/-- A successful Cognito `finishVerify` yields the constant scope list. -/
theorem CognitoVerifier.finishVerify_ok_scopes (v : CognitoVerifier) (count : Nat)
    (parsed : TokenBody) (token : String) (now : Nat) (info : TokenInfo)
    (v' : CognitoVerifier) (c' : Nat)
    (h : CognitoVerifier.finishVerify v count parsed token now = (.ok info, v', c')) :
    info.scopes = ["openid", "profile"] := by
  unfold CognitoVerifier.finishVerify at h
  split_ifs at h
  · exact absurd h (by simp)
  · simp only [Prod.mk.injEq, Except.ok.injEq] at h
    rw [← h.1]

/-- A successful Cognito `Verify` yields the constant scope list. -/
theorem CognitoVerifier.Verify_ok_scopes (v : CognitoVerifier)
    (world : Nat → Except String KeySet) (count : Nat) (tok : TokenInput)
    (now : Nat) (info : TokenInfo) (v' : CognitoVerifier) (c' : Nat)
    (h : v.Verify world count tok now = (.ok info, v', c')) :
    info.scopes = ["openid", "profile"] := by
  unfold CognitoVerifier.Verify at h
  rcases hg : v.getKeySet world count with ⟨r, v1, c1⟩
  simp only [hg] at h
  cases r with
  | error e => simp at h
  | ok ks =>
    cases hp : jwtParse ks tok now with
    | ok b =>
      simp only [hp] at h
      exact CognitoVerifier.finishVerify_ok_scopes _ _ _ _ _ _ _ _ h
    | error err =>
      simp only [hp] at h
      rcases hr : v1.refreshKeySet world c1 with ⟨r2, v2, c2⟩
      simp only [hr] at h
      cases r2 with
      | error e2 => simp at h
      | ok ks2 =>
        cases hp2 : jwtParse ks2 tok now with
        | error err2 => simp only [hp2] at h; simp at h
        | ok b =>
          simp only [hp2] at h
          exact CognitoVerifier.finishVerify_ok_scopes _ _ _ _ _ _ _ _ h

/-! ## Claim theorems -/

/-- C9 (amended): `NewProtectedResourceMetadata` is a pure total function
returning exactly
`{resource, authorizationServers := [issuer], scopesSupported := ["openid",
"profile"], bearerMethodsSupported := ["header"], resourceName := "Pidgr MCP
Server"}` for every pair of inputs; it performs no input validation and has
no failure mode. -/
theorem metadata_pure_total (resourceURL cognitoIssuer : String) :
    NewProtectedResourceMetadata resourceURL cognitoIssuer =
      { resource := resourceURL
        authorizationServers := [cognitoIssuer]
        scopesSupported := ["openid", "profile"]
        bearerMethodsSupported := ["header"]
        resourceName := "Pidgr MCP Server" } := rfl

/-- C9 (counterexample): the claim says the function's only failure mode is
input validation requiring both URLs to be non-empty absolute URLs; but on
the concrete input `("", "")` — empty, not absolute — the source performs no
validation and returns the ordinary metadata record. -/
theorem metadata_accepts_empty_urls :
    NewProtectedResourceMetadata "" "" =
      { resource := ""
        authorizationServers := [""]
        scopesSupported := ["openid", "profile"]
        bearerMethodsSupported := ["header"]
        resourceName := "Pidgr MCP Server" } := rfl

/-- C2 (code bug): with a warm, fresh cache, a token signed by a key whose
kid *is* in the key set but which has expired fails its first parse with
`.expired` — not "unknown key identifier" — yet `Verify` still performs a
forced key-set refresh (the fetch counter rises from 0 to 1) before failing.
The comment in the source ("If the error is due to unknown kid, try
refreshing JWKS once") and the claim both say such a failure is terminal
with no refresh. -/
theorem oidc_verify_refreshes_on_non_kid_failure :
    jwtParse testKeySet shortLivedToken 1000 = .error .expired ∧
    findKey testKeySet "test-kid" = some testKey ∧
    warmVerifier.Verify testWorld 0 shortLivedToken 1000 =
      (.error (errInvalidToken ++ ": token validation failed"),
       { warmVerifier with lastFetched := 1000 }, 1) :=
  ⟨rfl, rfl, rfl⟩

/-- C1 (amended): every failure of `OIDCVerifier.Verify` returns the single
generic public message `"invalid token: token validation failed"`, a
constant independent of the key-source URL, the token's claims and the
underlying error; `CognitoVerifier.Verify` does not share this property
(see the counterexample). -/
theorem oidc_verify_error_always_generic (v : OIDCVerifier)
    (world : Nat → Except String KeySet) (count now : Nat) (tok : TokenInput)
    (msg : String) (v' : OIDCVerifier) (c' : Nat)
    (h : v.Verify world count tok now = (.error msg, v', c')) :
    msg = errInvalidToken ++ ": token validation failed" := by
  unfold OIDCVerifier.Verify at h
  rcases hg : v.getKeySet world count now with ⟨r, v1, c1⟩
  simp only [hg] at h
  cases r with
  | error e => simp only [Prod.mk.injEq, Except.error.injEq] at h; exact h.1.symm
  | ok ks =>
    cases hp : jwtParse ks tok now with
    | ok b =>
      simp only [hp] at h
      exact OIDCVerifier.finishVerify_error_generic _ _ _ _ _ _ _ _ h
    | error err =>
      simp only [hp] at h
      rcases hr : v1.refreshKeySet world c1 now with ⟨r2, v2, c2⟩
      simp only [hr] at h
      cases r2 with
      | error e2 => simp only [Prod.mk.injEq, Except.error.injEq] at h; exact h.1.symm
      | ok ks2 =>
        cases hp2 : jwtParse ks2 tok now with
        | error err2 =>
          simp only [hp2, Prod.mk.injEq, Except.error.injEq] at h
          exact h.1.symm
        | ok b =>
          simp only [hp2] at h
          exact OIDCVerifier.finishVerify_error_generic _ _ _ _ _ _ _ _ h

/-- C1 (witness): the generic-message theorem applied to a concrete failing
run — the key source is unreachable, `Verify` fails, and the message is the
generic constant. -/
theorem oidc_verify_error_always_generic_witness :
    "invalid token: token validation failed" =
      errInvalidToken ++ ": token validation failed" :=
  oidc_verify_error_always_generic testVerifier failWorld 0 1000 testToken
    "invalid token: token validation failed" testVerifier 1 rfl

/-- C1 (counterexample): `CognitoVerifier.Verify`, cited by the same claim,
returns an error that embeds the token's issuer claim verbatim: verifying a
token issued by `https://evil.example` yields an error message containing
that issuer string, so the claim that no failure ever contains a claim value
is false on the code. -/
theorem cognito_verify_error_leaks_issuer :
    warmCognito.Verify testWorld 0 evilIssuerToken 1000 =
      (.error ("invalid token: invalid issuer: got \"https://evil.example\", want \"https://cognito-idp.us-east-1.amazonaws.com/test-pool\""),
       warmCognito, 0) ∧
    strContainsSub
      "invalid token: invalid issuer: got \"https://evil.example\", want \"https://cognito-idp.us-east-1.amazonaws.com/test-pool\""
      "https://evil.example" = true :=
  ⟨rfl, by decide⟩

/-- C3: for a valid, unexpired, correctly-signed token (the first parse
succeeds against the served key set) whose issuer matches and whose audience
check passes, `Verify` succeeds with `UserID` and the `sub` extra equal to
the token's subject claim and the `raw_token` extra equal to the exact input
string. -/
theorem oidc_verify_success_subject_and_raw (v v1 : OIDCVerifier)
    (world : Nat → Except String KeySet) (count c1 now : Nat) (tok : TokenInput)
    (b : TokenBody) (ks : KeySet)
    (hks : v.getKeySet world count now = (.ok ks, v1, c1))
    (hp : jwtParse ks tok now = .ok b)
    (hiss : b.issuer = v.issuer)
    (haud : v.clientID = "" ∨ v.clientID ∈ b.audience) :
    (v.Verify world count tok now).1.map TokenInfo.userID = .ok b.subject ∧
    (v.Verify world count tok now).1.map TokenInfo.sub = .ok b.subject ∧
    (v.Verify world count tok now).1.map TokenInfo.rawToken = .ok tok.raw := by
  rw [OIDCVerifier.Verify_ok_of v v1 world count c1 now tok b ks hks hp hiss haud]
  exact ⟨rfl, rfl, rfl⟩

/-- C3 (witness): the success theorem at the concrete test fixture. -/
theorem oidc_verify_success_subject_and_raw_witness :
    (testVerifier.Verify testWorld 0 testToken 1000).1.map TokenInfo.userID =
      .ok "user-123" ∧
    (testVerifier.Verify testWorld 0 testToken 1000).1.map TokenInfo.sub =
      .ok "user-123" ∧
    (testVerifier.Verify testWorld 0 testToken 1000).1.map TokenInfo.rawToken =
      .ok "header.payload.signature" :=
  oidc_verify_success_subject_and_raw testVerifier testVerifierFetched testWorld
    0 1 1000 testToken testBody testKeySet rfl rfl rfl (Or.inl rfl)

/-- C4: a present, fresh cache is served without any fetch (the counter does
not move and the state is unchanged), and consequently two consecutive
`getKeySet` calls from a cold start within the TTL window perform exactly
one fetch in total. -/
theorem oidc_getKeySet_fresh_cache_single_fetch :
    (∀ (v : OIDCVerifier) (world : Nat → Except String KeySet) (count now : Nat)
       (ks : KeySet), v.keySet = some ks → v.fetched = true →
       now - v.lastFetched < jwksCacheTTL →
       v.getKeySet world count now = (.ok ks, v, count)) ∧
    (∀ (issuerURL clientID : String) (world : Nat → Except String KeySet)
       (ks : KeySet) (t0 t1 : Nat), world 0 = .ok ks →
       t1 - t0 < jwksCacheTTL →
       ((((NewOIDCVerifier issuerURL clientID).getKeySet world 0 t0).2.1).getKeySet
          world (((NewOIDCVerifier issuerURL clientID).getKeySet world 0 t0).2.2)
          t1).2.2 = 1) := by
  constructor
  · intro v world count now ks hks hf hfresh
    unfold OIDCVerifier.getKeySet
    simp only [hks]
    rw [if_pos ⟨hf, hfresh⟩]
  · intro issuerURL clientID world ks t0 t1 hw hfresh
    have h1 : (NewOIDCVerifier issuerURL clientID).getKeySet world 0 t0 =
        (.ok ks,
         { NewOIDCVerifier issuerURL clientID with
             keySet := some ks, fetched := true, lastFetched := t0 }, 1) := by
      unfold OIDCVerifier.getKeySet NewOIDCVerifier OIDCVerifier.refreshKeySet
      simp [hw]
    rw [h1]
    simp [OIDCVerifier.getKeySet, hfresh]

/-- C4 (witness): the single-fetch theorem at the concrete test fixture —
a warm fresh cache is served unchanged, and a cold start followed by a
second call within the hour performs one fetch. -/
theorem oidc_getKeySet_fresh_cache_single_fetch_witness :
    warmVerifier.getKeySet testWorld 5 1000 = (.ok testKeySet, warmVerifier, 5) ∧
    ((((NewOIDCVerifier testIssuer "").getKeySet testWorld 0 0).2.1).getKeySet
       testWorld (((NewOIDCVerifier testIssuer "").getKeySet testWorld 0 0).2.2)
       100).2.2 = 1 :=
  ⟨oidc_getKeySet_fresh_cache_single_fetch.1 warmVerifier testWorld 5 1000
     testKeySet rfl rfl (by decide),
   oidc_getKeySet_fresh_cache_single_fetch.2 testIssuer "" testWorld testKeySet
     0 100 rfl (by decide)⟩

/-- C5: when the fetch fails, `refreshKeySet` (either verifier) returns the
error and leaves the cache fields exactly as they were, and `getKeySet`
under a failing fetch either serves the fresh cache without fetching or
propagates the same error with the state untouched — it never falls back to
stale keys. -/
theorem fetch_failure_preserves_cache :
    (∀ (v : OIDCVerifier) (world : Nat → Except String KeySet) (count now : Nat)
       (e : String), world count = .error e →
       v.refreshKeySet world count now =
         (.error ("failed to fetch key set: " ++ e), v, count + 1) ∧
       ((∃ ks, v.keySet = some ks ∧
           v.getKeySet world count now = (.ok ks, v, count)) ∨
         v.getKeySet world count now =
           (.error ("failed to fetch key set: " ++ e), v, count + 1))) ∧
    (∀ (v : CognitoVerifier) (world : Nat → Except String KeySet) (count : Nat)
       (e : String), world count = .error e →
       v.refreshKeySet world count =
         (.error ("fetch JWKS from " ++ v.jwksURL ++ ": " ++ e), v, count + 1)) := by
  constructor
  · intro v world count now e hw
    have hr : v.refreshKeySet world count now =
        (.error ("failed to fetch key set: " ++ e), v, count + 1) := by
      unfold OIDCVerifier.refreshKeySet
      rw [hw]
    refine ⟨hr, ?_⟩
    unfold OIDCVerifier.getKeySet
    cases hks : v.keySet with
    | none =>
      dsimp only
      exact Or.inr hr
    | some ks =>
      dsimp only
      by_cases hc : v.fetched = true ∧ now - v.lastFetched < jwksCacheTTL
      · exact Or.inl ⟨ks, rfl, by rw [if_pos hc]⟩
      · exact Or.inr (by rw [if_neg hc]; exact hr)
  · intro v world count e hw
    unfold CognitoVerifier.refreshKeySet
    rw [hw]

/-- C5 (witness): the preservation theorem at a concrete unreachable key
source, from cold verifiers — each fetch fails and each state is
unchanged. -/
theorem fetch_failure_preserves_cache_witness :
    ((testVerifier.refreshKeySet failWorld 0 1000 =
       (.error ("failed to fetch key set: " ++ "connection refused"),
        testVerifier, 1)) ∧
     ((∃ ks, testVerifier.keySet = some ks ∧
         testVerifier.getKeySet failWorld 0 1000 = (.ok ks, testVerifier, 0)) ∨
       testVerifier.getKeySet failWorld 0 1000 =
         (.error ("failed to fetch key set: " ++ "connection refused"),
          testVerifier, 1))) ∧
    (NewCognitoVerifier "test-pool" "us-east-1").refreshKeySet failWorld 0 =
      (.error ("fetch JWKS from "
        ++ (NewCognitoVerifier "test-pool" "us-east-1").jwksURL
        ++ ": " ++ "connection refused"),
       NewCognitoVerifier "test-pool" "us-east-1", 1) :=
  ⟨fetch_failure_preserves_cache.1 testVerifier failWorld 0 1000
     "connection refused" rfl,
   fetch_failure_preserves_cache.2 (NewCognitoVerifier "test-pool" "us-east-1")
     failWorld 0 "connection refused" rfl⟩

/-- C6: a token whose issuer claim differs from the configured issuer is
never accepted: `Verify` fails. -/
theorem oidc_verify_rejects_issuer_mismatch (v : OIDCVerifier)
    (world : Nat → Except String KeySet) (count : Nat) (tok : TokenInput)
    (now : Nat)
    (hmis : ∀ b, tok.body = some b → ¬ b.issuer = v.issuer) :
    verifyOk (v.Verify world count tok now).1 = false := by
  rcases hv : v.Verify world count tok now with ⟨r, v', c'⟩
  cases r with
  | error m => rfl
  | ok info =>
    obtain ⟨b, hb, _, hiss, _⟩ := OIDCVerifier.Verify_ok_shape _ _ _ _ _ _ _ _ hv
    exact absurd hiss (hmis b hb)

/-- C6 (witness): the issuer-mismatch theorem at the concrete evil-issuer
token. -/
theorem oidc_verify_rejects_issuer_mismatch_witness :
    verifyOk (warmVerifier.Verify testWorld 0 evilIssuerToken 1000).1 = false :=
  oidc_verify_rejects_issuer_mismatch warmVerifier testWorld 0 evilIssuerToken
    1000 (by intro b hb; injection hb with h; rw [← h]; decide)

/-- C7: with a non-empty configured audience (client ID), `Verify` fails for
every token whose audience list does not contain it; with an empty
configured audience the audience claim is not consulted at all — the
verification outcome is identical for any two audience lists. -/
theorem oidc_verify_audience_rules :
    (∀ (v : OIDCVerifier) (world : Nat → Except String KeySet) (count : Nat)
       (tok : TokenInput) (now : Nat), v.clientID ≠ "" →
       (∀ b, tok.body = some b → v.clientID ∉ b.audience) →
       verifyOk (v.Verify world count tok now).1 = false) ∧
    (∀ (v : OIDCVerifier) (world : Nat → Except String KeySet) (count : Nat)
       (tok : TokenInput) (now : Nat) (a1 a2 : List String), v.clientID = "" →
       v.Verify world count (tok.withAudience a1) now =
         v.Verify world count (tok.withAudience a2) now) := by
  constructor
  · intro v world count tok now hne hout
    rcases hv : v.Verify world count tok now with ⟨r, v', c'⟩
    cases r with
    | error m => rfl
    | ok info =>
      obtain ⟨b, hb, _, _, haud⟩ := OIDCVerifier.Verify_ok_shape _ _ _ _ _ _ _ _ hv
      rcases haud with hc | hm
      · exact absurd hc hne
      · exact absurd hm (hout b hb)
  · intro v world count tok now a1 a2 hcid
    unfold OIDCVerifier.Verify
    rcases hg : v.getKeySet world count now with ⟨r, v1, c1⟩
    have hcfg := v.getKeySet_config world count now
    simp only [hg] at hcfg
    cases r with
    | error e => rfl
    | ok ks =>
      dsimp only
      rw [jwtParse_withAudience ks tok now a1, jwtParse_withAudience ks tok now a2]
      cases hp : jwtParse ks tok now with
      | ok b =>
        simp only [hp, Except.map, TokenInput.withAudience_raw]
        rw [OIDCVerifier.finishVerify_withAudience v1 c1 b a1 tok.raw now
              (by rw [hcfg.1]; exact hcid),
            OIDCVerifier.finishVerify_withAudience v1 c1 b a2 tok.raw now
              (by rw [hcfg.1]; exact hcid)]
      | error err =>
        simp only [hp, Except.map]
        rcases hr : v1.refreshKeySet world c1 now with ⟨r2, v2, c2⟩
        have hcfg2 := v1.refreshKeySet_config world c1 now
        simp only [hr] at hcfg2
        cases r2 with
        | error e2 => rfl
        | ok ks2 =>
          dsimp only
          rw [jwtParse_withAudience ks2 tok now a1,
              jwtParse_withAudience ks2 tok now a2]
          cases hp2 : jwtParse ks2 tok now with
          | error err2 => simp only [hp2, Except.map]
          | ok b =>
            simp only [hp2, Except.map, TokenInput.withAudience_raw]
            rw [OIDCVerifier.finishVerify_withAudience v2 c2 b a1 tok.raw now
                  (by rw [hcfg2.1, hcfg.1]; exact hcid),
                OIDCVerifier.finishVerify_withAudience v2 c2 b a2 tok.raw now
                  (by rw [hcfg2.1, hcfg.1]; exact hcid)]

/-- C7 (witness): the audience theorem at the concrete fixtures — a
configured client ID rejects a token carrying only some other audience, and
with no client ID two verifications differing only in the audience list
agree. -/
theorem oidc_verify_audience_rules_witness :
    verifyOk (audVerifier.Verify testWorld 0 wrongAudToken 1000).1 = false ∧
    testVerifier.Verify testWorld 0 (testToken.withAudience ["a"]) 1000 =
      testVerifier.Verify testWorld 0 (testToken.withAudience ["b"]) 1000 :=
  ⟨oidc_verify_audience_rules.1 audVerifier testWorld 0 wrongAudToken 1000
     (by decide) (by intro b hb; injection hb with h; rw [← h]; decide),
   oidc_verify_audience_rules.2 testVerifier testWorld 0 testToken 1000
     ["a"] ["b"] rfl⟩

/-- C8: an otherwise valid token with no expiration claim verifies
successfully and the returned expiration is exactly one hour past the
current time. -/
theorem oidc_verify_missing_exp_one_hour (v v1 : OIDCVerifier)
    (world : Nat → Except String KeySet) (count c1 now : Nat) (tok : TokenInput)
    (b : TokenBody) (ks : KeySet)
    (hks : v.getKeySet world count now = (.ok ks, v1, c1))
    (hp : jwtParse ks tok now = .ok b)
    (hiss : b.issuer = v.issuer)
    (haud : v.clientID = "" ∨ v.clientID ∈ b.audience)
    (hexp : b.expiration = none) :
    (v.Verify world count tok now).1.map TokenInfo.expiration = .ok (now + 3600) := by
  rw [OIDCVerifier.Verify_ok_of v v1 world count c1 now tok b ks hks hp hiss haud]
  simp [hexp, Except.map]

/-- C8 (witness): the missing-expiry theorem at the concrete token without
an `exp` claim, verified at time `1000`. -/
theorem oidc_verify_missing_exp_one_hour_witness :
    (testVerifier.Verify testWorld 0 noExpToken 1000).1.map TokenInfo.expiration =
      .ok (1000 + 3600) :=
  oidc_verify_missing_exp_one_hour testVerifier testVerifierFetched testWorld
    0 1 1000 noExpToken { testBody with expiration := none } testKeySet
    rfl rfl rfl (Or.inl rfl) rfl

/-- C10: on every successful verification — by either verifier — the
`Scopes` field is exactly the constant `["openid", "profile"]`, independent
of the token's claims. -/
theorem verify_scopes_constant :
    (∀ (v : OIDCVerifier) (world : Nat → Except String KeySet) (count : Nat)
       (tok : TokenInput) (now : Nat) (info : TokenInfo) (v' : OIDCVerifier)
       (c' : Nat), v.Verify world count tok now = (.ok info, v', c') →
       info.scopes = ["openid", "profile"]) ∧
    (∀ (v : CognitoVerifier) (world : Nat → Except String KeySet) (count : Nat)
       (tok : TokenInput) (now : Nat) (info : TokenInfo) (v' : CognitoVerifier)
       (c' : Nat), v.Verify world count tok now = (.ok info, v', c') →
       info.scopes = ["openid", "profile"]) := by
  constructor
  · intro v world count tok now info v' c' h
    obtain ⟨b, _, hinfo, _, _⟩ := OIDCVerifier.Verify_ok_shape _ _ _ _ _ _ _ _ h
    rw [hinfo]
  · intro v world count tok now info v' c' h
    exact CognitoVerifier.Verify_ok_scopes _ _ _ _ _ _ _ _ h

/-- C10 (witness): the constant-scopes theorem at a concrete successful run
of each verifier. -/
theorem verify_scopes_constant_witness :
    testInfo.scopes = ["openid", "profile"] ∧
    cognitoInfo.scopes = ["openid", "profile"] :=
  ⟨verify_scopes_constant.1 testVerifier testWorld 0 testToken 1000 testInfo
     testVerifierFetched 1 rfl,
   verify_scopes_constant.2 warmCognito testWorld 0 cognitoToken 1000
     cognitoInfo warmCognito 0 rfl⟩

end PidgrMCP
